import Mathlib

set_option maxRecDepth 8192

/-!
Shallow embedding of the VPS lifecycle manager of `bot.py` (EagleNode Host
Discord bot).  The registry is the Python dict `vps_state` modelled as an
association list; Docker is modelled as an oracle (`DockerModel`) whose
responses determine the branch taken by each slash-command handler, exactly
mirroring the try/except structure of the source.  Python exceptions are
split, as in the source, into docker `NotFound` and every other exception
(which the handlers catch with a generic `except Exception`).
-/

namespace VpsBot

/-- A Python exception as discriminated by the handlers in `bot.py`:
`docker.errors.NotFound` is caught specially, everything else falls to the
generic `except Exception as e` branch carrying its message. -/
inductive PyExc where
  | notFound
  | other (msg : String)
deriving DecidableEq, Repr

/-- Return value of `docker_client.containers.run` as used by
`run_docker_container` (`{"id": container.id, "short_id": container.short_id}`). -/
structure RunRes where
  id : String
  short_id : String
deriving DecidableEq, Repr

/-- Model of one Docker container object: its reported status and the outcome
of each method the bot invokes on it (`none` = the call returns normally,
`some e` = the call raises `e`). -/
structure ContainerModel where
  status : String
  con_short_id : String
  startExc : Option PyExc
  stopExc : Option PyExc
  restartExc : Option PyExc
  removeExc : Option PyExc
  execExc : Option PyExc
  execOut : String
  execErr : String
deriving DecidableEq, Repr

/-- Model of the Docker SDK client: `containers.get cid` and the
pull-and-run sequence of `run_docker_container`. -/
structure DockerModel where
  getContainer : String → Except PyExc ContainerModel
  runContainer : String → String → Except String RunRes

/-- One entry of `vps_state`:
`{owner_id, image, created_at, container_id, short_id, meta}` (the open
`meta` map is never read by the lifecycle logic and is elided). -/
structure InstanceRecord where
  owner_id : Nat
  image : String
  created_at : String
  container_id : String
  short_id : String
deriving DecidableEq, Repr

/-- The registry `vps_state : Dict[str, dict]`, an insertion-ordered mapping
from container name to record. -/
abbrev VpsState := List (String × InstanceRecord)

/-- Contents of `BACKUP_FILE`: absent, present but not unpicklable, or a
valid pickled registry. -/
inductive BackupFile where
  | absent
  | corrupt
  | valid (st : VpsState)
deriving DecidableEq, Repr

/-- Process state: the in-memory registry plus the durable backup file. -/
structure World where
  vps_state : VpsState
  backupFile : BackupFile
deriving DecidableEq, Repr

/-- Environment-driven configuration (`MAX_VPS_PER_USER`, `MAX_CONTAINERS`,
`ADMIN_IDS`). -/
structure Config where
  MAX_VPS_PER_USER : Nat
  MAX_CONTAINERS : Nat
  ADMIN_IDS : List Nat
deriving DecidableEq, Repr

/-- The interaction user: Discord id plus the outcome of the
`ADMIN_ROLE_ID` role-membership check of `member_is_admin`. -/
structure Caller where
  id : Nat
  hasAdminRole : Bool
deriving DecidableEq, Repr

/-- `MINER_PATTERNS` from `bot.py`. -/
def MINER_PATTERNS : List String :=
  ["xmrig", "ethminer", "cgminer", "sgminer", "bfgminer",
   "minerd", "cpuminer", "cryptonight", "stratum", "pool"]

/-- `member_is_admin`: the caller id is in `ADMIN_IDS`, or the caller holds
the designated admin role. -/
def member_is_admin (cfg : Config) (caller : Caller) : Bool :=
  cfg.ADMIN_IDS.contains caller.id || caller.hasAdminRole

/-- Python `str.lower()`, applied character by character (stated over the
character list so that it evaluates by kernel reduction; `pyLower_eq_toLower`
below identifies it with `String.toLower`). -/
def pyLower (s : String) : String := String.mk (s.data.map Char.toLower)

/-- Per-character sanitization of `safe_container_name`:
`c if c.isalnum() or c in "-_" else "-"`. -/
def sanitizeChar (c : Char) : Char :=
  if c.isAlphanum || c = '-' || c = '_' then c else '-'

/-- `safe_container_name (base, uid)`: build `eaglenode-{base}-{uid}`,
lower-case it and sanitize each character. -/
def safe_container_name (base : String) (uid : Nat) : String :=
  let name : String := "eaglenode-" ++ base ++ "-" ++ Nat.repr uid
  String.mk ((pyLower name).data.map sanitizeChar)

/-- `detect_malicious_image`: some miner pattern is a substring of the
lower-cased image reference (Python `patt in lower`). -/
def detect_malicious_image (image : String) : Bool :=
  let lower := pyLower image
  MINER_PATTERNS.any (fun patt => decide (patt.data <:+: lower.data))

/-- Fixed message of `RuntimeError("Docker client not available on host")`
raised by `run_docker_container` when the client is absent. -/
def dockerUnavailableMsg : String := "Docker client not available on host"

/-- Message of the AttributeError raised by evaluating
`docker_client.containers` when `docker_client` is `None`. -/
def attrErrMsg : String := "NoneType object has no attribute containers"

/-- `run_docker_container`: raises the fixed RuntimeError when the client is
absent, otherwise pull-and-run with outcome given by the runtime model. -/
def run_docker_container (client : Option DockerModel) (image name : String)
    (_owner_id : Nat) : Except String RunRes :=
  match client with
  | none => .error dockerUnavailableMsg
  | some c => c.runContainer image name

/-- Evaluation of `docker_client.containers.get cid`: on an absent client the
attribute access itself raises (a non-NotFound exception), otherwise the
runtime model answers. -/
def containers_get (client : Option DockerModel) (cid : String) :
    Except PyExc ContainerModel :=
  match client with
  | none => .error (.other attrErrMsg)
  | some c => c.getContainer cid

/-- `save_backup`: overwrite the backup file with the current registry. -/
def save_backup (w : World) : World :=
  { w with backupFile := .valid w.vps_state }

/-- `load_backup`: if the file is absent do nothing; otherwise unpickle and,
only on success, replace the registry (the assignment in the `try` block is
not reached when `pickle.load` raises). -/
def load_backup (w : World) : World :=
  match w.backupFile with
  | .absent => w
  | .corrupt => w
  | .valid st => { w with vps_state := st }

/-- `slash_restore` (admin-only at the command surface): just `load_backup`. -/
def slash_restore (w : World) : World :=
  load_backup w

/-- The list comprehension of `slash_create`:
`[n for n, v in vps_state.items() if v.get("owner_id") == user.id]`. -/
def user_containers (st : VpsState) (uid : Nat) : List String :=
  (st.filter (fun p => p.2.owner_id == uid)).map (fun p => p.1)

/-- Outcome of `slash_create`, one constructor per `followup.send` branch of
the handler, in source order. -/
inductive CreateResult where
  | quotaExceeded (count : Nat)
  | duplicateName
  | maliciousImage
  | globalCap
  | created (name : String)
  | createFailed (msg : String)
deriving DecidableEq, Repr

/-- `slash_create`: per-user quota, duplicate name, image policy, global cap,
then the runtime call; on success insert the record and `save_backup`. -/
def slash_create (cfg : Config) (client : Option DockerModel) (w : World)
    (user : Caller) (name image now : String) : CreateResult × World :=
  if cfg.MAX_VPS_PER_USER ≤ (user_containers w.vps_state user.id).length then
    (.quotaExceeded (user_containers w.vps_state user.id).length, w)
  else if (w.vps_state.lookup (safe_container_name name user.id)).isSome then
    (.duplicateName, w)
  else if detect_malicious_image image then
    (.maliciousImage, w)
  else if cfg.MAX_CONTAINERS ≤ w.vps_state.length then
    (.globalCap, w)
  else
    match run_docker_container client image (safe_container_name name user.id)
        user.id with
    | .error msg => (.createFailed msg, w)
    | .ok res =>
        (.created (safe_container_name name user.id),
          save_backup
            { vps_state := w.vps_state ++
                [(safe_container_name name user.id,
                  { owner_id := user.id, image := image, created_at := now,
                    container_id := res.id, short_id := res.short_id })],
              backupFile := w.backupFile })

/-- Outcome of the mutating per-name handlers (`start`, `stop`, `restart`,
`delete`, `exec`), one constructor per `followup.send` branch. -/
inductive CmdResult where
  | noManagedVps
  | permissionDenied (action : String)
  | success (msg : String)
  | containerNotFound
  | opFailed (msg : String)
deriving DecidableEq, Repr

/-- `slash_start`: lookup, ownership-or-admin check, `containers.get` then
`container.start()`; `NotFound` and generic exceptions are reported without
touching the registry. -/
def slash_start (cfg : Config) (client : Option DockerModel) (st : VpsState)
    (caller : Caller) (name : String) : CmdResult × VpsState :=
  match st.lookup name with
  | none => (.noManagedVps, st)
  | some entry =>
    if entry.owner_id != caller.id && !(member_is_admin cfg caller) then
      (.permissionDenied "start", st)
    else
      match containers_get client entry.container_id with
      | .error .notFound => (.containerNotFound, st)
      | .error (.other m) => (.opFailed ("Failed to start VPS: " ++ m), st)
      | .ok cont =>
          match cont.startExc with
          | none => (.success ("VPS " ++ name ++ " started."), st)
          | some .notFound => (.containerNotFound, st)
          | some (.other m) => (.opFailed ("Failed to start VPS: " ++ m), st)

/-- `slash_stop`: same shape as `slash_start` with `container.stop()`. -/
def slash_stop (cfg : Config) (client : Option DockerModel) (st : VpsState)
    (caller : Caller) (name : String) : CmdResult × VpsState :=
  match st.lookup name with
  | none => (.noManagedVps, st)
  | some entry =>
    if entry.owner_id != caller.id && !(member_is_admin cfg caller) then
      (.permissionDenied "stop", st)
    else
      match containers_get client entry.container_id with
      | .error .notFound => (.containerNotFound, st)
      | .error (.other m) => (.opFailed ("Failed to stop VPS: " ++ m), st)
      | .ok cont =>
          match cont.stopExc with
          | none => (.success ("VPS " ++ name ++ " stopped."), st)
          | some .notFound => (.containerNotFound, st)
          | some (.other m) => (.opFailed ("Failed to stop VPS: " ++ m), st)

/-- `slash_restart`: same shape as `slash_start` with `container.restart()`. -/
def slash_restart (cfg : Config) (client : Option DockerModel) (st : VpsState)
    (caller : Caller) (name : String) : CmdResult × VpsState :=
  match st.lookup name with
  | none => (.noManagedVps, st)
  | some entry =>
    if entry.owner_id != caller.id && !(member_is_admin cfg caller) then
      (.permissionDenied "restart", st)
    else
      match containers_get client entry.container_id with
      | .error .notFound => (.containerNotFound, st)
      | .error (.other m) => (.opFailed ("Failed to restart VPS: " ++ m), st)
      | .ok cont =>
          match cont.restartExc with
          | none => (.success ("VPS " ++ name ++ " restarted."), st)
          | some .notFound => (.containerNotFound, st)
          | some (.other m) => (.opFailed ("Failed to restart VPS: " ++ m), st)

/-- `slash_delete`: lookup, ownership-or-admin check, then attempted runtime
removal where only `NotFound` is tolerated (inner `except NotFound`); the
registry entry is popped and the backup saved whenever control reaches the
cleanup, while any other exception aborts before the cleanup. -/
def slash_delete (cfg : Config) (client : Option DockerModel) (w : World)
    (caller : Caller) (name : String) (_force : Bool) : CmdResult × World :=
  match w.vps_state.lookup name with
  | none => (.noManagedVps, w)
  | some entry =>
    if entry.owner_id != caller.id && !(member_is_admin cfg caller) then
      (.permissionDenied "delete", w)
    else
      let cleanup : CmdResult × World :=
        (.success ("VPS " ++ name ++ " removed and state cleaned."),
          save_backup
            { vps_state := w.vps_state.filter (fun p => p.1 != name),
              backupFile := w.backupFile })
      match containers_get client entry.container_id with
      | .error .notFound => cleanup
      | .error (.other m) => (.opFailed ("Failed to delete VPS: " ++ m), w)
      | .ok cont =>
          match cont.removeExc with
          | none => cleanup
          | some .notFound => cleanup
          | some (.other m) => (.opFailed ("Failed to delete VPS: " ++ m), w)

/-- Output post-processing of `slash_exec`: strip, replace an empty result,
truncate past 1900 characters with a visible marker. -/
def exec_format (out err : String) : String :=
  let combined := (out ++ "\n" ++ err).trim
  let combined := if combined.length == 0 then "(no output)" else combined
  if 1900 < combined.length then
    String.mk (combined.data.take 1900) ++ "\n...truncated..."
  else combined

/-- `slash_exec`: lookup, ownership-or-admin check, `exec_run` inside the
container, formatted output; no registry mutation on any branch. -/
def slash_exec (cfg : Config) (client : Option DockerModel) (st : VpsState)
    (caller : Caller) (name _command : String) : CmdResult × VpsState :=
  match st.lookup name with
  | none => (.noManagedVps, st)
  | some entry =>
    if entry.owner_id != caller.id && !(member_is_admin cfg caller) then
      (.permissionDenied "exec", st)
    else
      match containers_get client entry.container_id with
      | .error .notFound => (.containerNotFound, st)
      | .error (.other m) => (.opFailed ("Exec failed: " ++ m), st)
      | .ok cont =>
          match cont.execExc with
          | none => (.success (exec_format cont.execOut cont.execErr), st)
          | some .notFound => (.containerNotFound, st)
          | some (.other m) => (.opFailed ("Exec failed: " ++ m), st)

/-- Outcome of `slash_status`, one constructor per branch. -/
inductive StatusResult where
  | noManagedVps
  | info (short_id status : String)
  | containerNotFound
  | statusError (msg : String)
deriving DecidableEq, Repr

/-- `slash_status`: lookup (no permission gate in the source), then inspect;
`NotFound` and generic failures get distinct messages. -/
def slash_status (client : Option DockerModel) (st : VpsState)
    (name : String) : StatusResult × VpsState :=
  match st.lookup name with
  | none => (.noManagedVps, st)
  | some entry =>
    match containers_get client entry.container_id with
    | .error .notFound => (.containerNotFound, st)
    | .error (.other m) => (.statusError ("Error getting status: " ++ m), st)
    | .ok cont => (.info cont.con_short_id cont.status, st)

/-- Best-effort status annotation of one record in `slash_list`: any
exception from `containers.get` yields the string used by the handler. -/
def list_status (client : Option DockerModel) (cid : String) : String :=
  match containers_get client cid with
  | .ok cont => cont.status
  | .error _ => "not found"

/-- One line of the `slash_list` output for an owned record. -/
def list_line (client : Option DockerModel) (name : String)
    (meta : InstanceRecord) : String :=
  let cid := if meta.short_id != "" then meta.short_id else meta.container_id
  let status := list_status client meta.container_id
  "**" ++ name ++ "** — `" ++ cid ++ "` — `" ++ meta.image ++ "` — `"
    ++ status ++ "` — created " ++ meta.created_at

/-- Outcome of `slash_list`. -/
inductive ListResult where
  | noInstances
  | listing (lines : List String)
deriving DecidableEq, Repr

/-- `slash_list`: all records owned by the caller, each annotated with a
best-effort live status; a runtime failure on one record never fails the
listing. -/
def slash_list (client : Option DockerModel) (st : VpsState)
    (user : Caller) : ListResult :=
  if (st.filter (fun p => p.2.owner_id == user.id)).isEmpty then .noInstances
  else
    .listing ((st.filter (fun p => p.2.owner_id == user.id)).map
      (fun p => list_line client p.1 p.2))

/-! Decimal-representation facts used to reason about the `{uid}` suffix of
`safe_container_name` (Python `str(uid)`, embedded as `Nat.repr`). -/

/-- Structural decimal digit list of a natural number (empty for zero). -/
def rep10 (n : Nat) : List Char :=
  if h : n = 0 then []
  else
    have : n / 10 < n := Nat.div_lt_self (Nat.pos_of_ne_zero h) (by norm_num)
    rep10 (n / 10) ++ [Nat.digitChar (n % 10)]

theorem rep10_zero : rep10 0 = [] := by
  rw [rep10]
  simp

theorem rep10_ne_zero {n : Nat} (h : n ≠ 0) :
    rep10 n = rep10 (n / 10) ++ [Nat.digitChar (n % 10)] := by
  rw [rep10]
  simp [h]

/-- `Nat.toDigitsCore` with sufficient fuel computes `rep10`. -/
theorem toDigitsCore_eq_rep10 :
    ∀ (fuel n : Nat) (acc : List Char), n < fuel →
      Nat.toDigitsCore 10 fuel n acc =
        (if n = 0 then ['0'] else rep10 n) ++ acc := by
  intro fuel
  induction fuel with
  | zero => intro n acc h; omega
  | succ f ih =>
    intro n acc h
    unfold Nat.toDigitsCore
    by_cases h10 : n / 10 = 0
    · simp only [h10, if_pos rfl]
      by_cases h0 : n = 0
      · subst h0; simp [Nat.digitChar]
      · rw [if_neg h0, rep10_ne_zero h0, h10, rep10_zero]
        simp
    · rw [if_neg h10]
      have hlt : n / 10 < f := by
        have : n / 10 < n := Nat.div_lt_self (by omega) (by norm_num)
        omega
      rw [ih (n / 10) (Nat.digitChar (n % 10) :: acc) hlt]
      have hn0 : n ≠ 0 := by
        intro h0; subst h0; simp at h10
      rw [if_neg h10, if_neg hn0, rep10_ne_zero hn0]
      simp

/-- `Nat.toDigits` at base 10 in terms of `rep10`. -/
theorem toDigits_eq_rep10 (n : Nat) :
    Nat.toDigits 10 n = if n = 0 then ['0'] else rep10 n := by
  unfold Nat.toDigits
  rw [toDigitsCore_eq_rep10 (n + 1) n [] (Nat.lt_succ_self n)]
  simp

/-- Decimal re-interpretation of a digit-character list. -/
def digitsVal (l : List Char) : Nat :=
  l.foldl (fun a c => 10 * a + (c.toNat - 48)) 0

theorem digitChar_val {m : Nat} (h : m < 10) :
    (Nat.digitChar m).toNat - 48 = m := by
  interval_cases m <;> decide

theorem foldl_rep10 :
    ∀ (n a : Nat),
      List.foldl (fun a c => 10 * a + (c.toNat - 48)) a (rep10 n) =
        a * 10 ^ (rep10 n).length + n := by
  intro n
  induction n using Nat.strong_induction_on with
  | _ n ih =>
    intro a
    by_cases h0 : n = 0
    · subst h0; simp [rep10_zero]
    · rw [rep10_ne_zero h0]
      have hdiv : n / 10 < n := Nat.div_lt_self (by omega) (by norm_num)
      rw [List.foldl_append, ih (n / 10) hdiv a]
      have hm : n % 10 < 10 := Nat.mod_lt _ (by norm_num)
      simp only [List.foldl_cons, List.foldl_nil, List.length_append,
        List.length_cons, List.length_nil]
      rw [digitChar_val hm]
      have := Nat.div_add_mod n 10
      ring_nf
      omega

theorem digitsVal_rep10 (n : Nat) : digitsVal (rep10 n) = n := by
  unfold digitsVal
  rw [foldl_rep10 n 0]
  simp

theorem digitsVal_toDigits (n : Nat) : digitsVal (Nat.toDigits 10 n) = n := by
  rw [toDigits_eq_rep10]
  by_cases h0 : n = 0
  · subst h0; simp [digitsVal]
  · rw [if_neg h0, digitsVal_rep10]

/-- `str(uid)` (embedded as `Nat.repr`) is injective. -/
theorem natRepr_injective {m n : Nat} (h : Nat.repr m = Nat.repr n) : m = n := by
  have hdata : (Nat.repr m).data = (Nat.repr n).data := by rw [h]
  have : Nat.toDigits 10 m = Nat.toDigits 10 n := hdata
  calc m = digitsVal (Nat.toDigits 10 m) := (digitsVal_toDigits m).symm
    _ = digitsVal (Nat.toDigits 10 n) := by rw [this]
    _ = n := digitsVal_toDigits n

/-- The ten decimal digit characters. -/
def decDigits : List Char := ['0', '1', '2', '3', '4', '5', '6', '7', '8', '9']

theorem digitChar_mem_decDigits {m : Nat} (h : m < 10) :
    Nat.digitChar m ∈ decDigits := by
  interval_cases m <;> decide

theorem rep10_digits : ∀ (n : Nat), ∀ c ∈ rep10 n, c ∈ decDigits := by
  intro n
  induction n using Nat.strong_induction_on with
  | _ n ih =>
    intro c hc
    by_cases h0 : n = 0
    · subst h0; rw [rep10_zero] at hc; cases hc
    · rw [rep10_ne_zero h0] at hc
      rcases List.mem_append.mp hc with h | h
      · exact ih (n / 10) (Nat.div_lt_self (by omega) (by norm_num)) c h
      · rcases List.mem_singleton.mp h with rfl
        exact digitChar_mem_decDigits (Nat.mod_lt _ (by norm_num))

theorem toDigits_digits (n : Nat) : ∀ c ∈ Nat.toDigits 10 n, c ∈ decDigits := by
  rw [toDigits_eq_rep10]
  by_cases h0 : n = 0
  · subst h0; intro c hc; simp at hc; subst hc; decide
  · rw [if_neg h0]; exact rep10_digits n

/-- Lower-casing then sanitizing fixes every decimal digit character. -/
theorem sanitize_lower_fixes_digit {c : Char} (h : c ∈ decDigits) :
    sanitizeChar (Char.toLower c) = c := by
  fin_cases h <;> decide

theorem map_fixes {α : Type} {g : α → α} :
    ∀ {l : List α}, (∀ c ∈ l, g c = c) → l.map g = l := by
  intro l
  induction l with
  | nil => intro _; rfl
  | cons x xs ih =>
    intro h
    simp only [List.map_cons]
    rw [h x (List.mem_cons_self x xs), ih (fun c hc => h c (List.mem_cons_of_mem x hc))]

theorem repr_data (n : Nat) : (Nat.repr n).data = Nat.toDigits 10 n := rfl

/-- Sanity check: the characterwise `pyLower` is `String.toLower`. -/
theorem pyLower_eq_toLower (s : String) : pyLower s = s.toLower := by
  unfold pyLower String.toLower
  rw [String.map_eq]

/-- The characters of `safe_container_name base uid`: a prefix determined
only by `base`, followed verbatim by the decimal digits of `uid`. -/
theorem safe_container_name_data (base : String) (uid : Nat) :
    (safe_container_name base uid).data =
      (("eaglenode-" ++ base ++ "-").data.map (sanitizeChar ∘ Char.toLower))
        ++ Nat.toDigits 10 uid := by
  unfold safe_container_name pyLower
  show (("eaglenode-" ++ base ++ "-" ++ Nat.repr uid).data.map Char.toLower).map
      sanitizeChar = _
  simp only [List.map_map]
  have hd : ("eaglenode-" ++ base ++ "-" ++ Nat.repr uid).data =
      ("eaglenode-" ++ base ++ "-").data ++ Nat.toDigits 10 uid := by
    rw [String.data_append, repr_data]
  rw [hd, List.map_append]
  congr 1
  exact map_fixes (fun c hc => sanitize_lower_fixes_digit (toDigits_digits uid c hc))

theorem safe_container_name_uid_injective (base : String) {u1 u2 : Nat}
    (h : safe_container_name base u1 = safe_container_name base u2) :
    u1 = u2 := by
  have hd : (safe_container_name base u1).data =
      (safe_container_name base u2).data := by rw [h]
  rw [safe_container_name_data, safe_container_name_data] at hd
  have hdig : Nat.toDigits 10 u1 = Nat.toDigits 10 u2 :=
    List.append_cancel_left hd
  have h2 : digitsVal (Nat.toDigits 10 u1) = digitsVal (Nat.toDigits 10 u2) := by
    rw [hdig]
  rwa [digitsVal_toDigits, digitsVal_toDigits] at h2

/-! Concrete fixtures used by witnesses and counterexamples. -/

/-- Default configuration of `bot.py` (`MAX_VPS_PER_USER=3`,
`MAX_CONTAINERS=100`, no admin ids). -/
def cfgD : Config := ⟨3, 100, []⟩

/-- Owner in the concrete scenarios. -/
def U1 : Caller := ⟨1, false⟩

/-- A non-owner, non-admin caller. -/
def U2 : Caller := ⟨2, false⟩

/-- A healthy container object. -/
def okContainer : ContainerModel :=
  ⟨"running", "abc123", none, none, none, none, none, "hi", ""⟩

/-- A healthy runtime: every lookup succeeds, every run succeeds. -/
def okModel : DockerModel :=
  ⟨fun _ => .ok okContainer, fun _ nm => .ok ⟨"cid-" ++ nm, "sid-" ++ nm⟩⟩

/-- A runtime whose container objects have all disappeared. -/
def goneModel : DockerModel :=
  ⟨fun _ => .error .notFound, fun _ nm => .ok ⟨"cid-" ++ nm, "sid-" ++ nm⟩⟩

/-- The default image. -/
def defImage : String := "ubuntu:22.04"

/-- Fresh process state. -/
def w0 : World := ⟨[], .absent⟩

/-- State after U1 creates label `a`. -/
def w1 : World := (slash_create cfgD (some okModel) w0 U1 "a" defImage "t1").2

/-- State after U1 creates labels `a`, `b`. -/
def w2 : World := (slash_create cfgD (some okModel) w1 U1 "b" defImage "t2").2

/-- State after U1 creates labels `a`, `b`, `c` (at the per-user quota). -/
def w3 : World := (slash_create cfgD (some okModel) w2 U1 "c" defImage "t3").2

/-- Looking up a key in the registry after popping it yields nothing. -/
theorem lookup_filter_ne (st : VpsState) (name : String) :
    (st.filter (fun p => p.1 != name)).lookup name = none := by
  induction st with
  | nil => rfl
  | cons x xs ih =>
    obtain ⟨k, v⟩ := x
    by_cases hk : k = name
    · simp [List.filter_cons, hk, ih]
    · have hbk : (name == k) = false := by simp [Ne.symm hk]
      simp [List.filter_cons, hk, List.lookup, ih, hbk, bne_iff_ne]

/-! Claim theorems. -/

/-- C1: a caller who is neither the owner of the record (`owner_id` differs
from the caller id) nor an admin receives a PermissionDenied result from
start, stop, restart, delete and exec, and the registry mapping is left
completely unchanged. -/
theorem claim1_nonowner_denied_no_change
    (cfg : Config) (client : Option DockerModel) (w : World) (caller : Caller)
    (name command : String) (force : Bool) (entry : InstanceRecord)
    (hlook : w.vps_state.lookup name = some entry)
    (hown : entry.owner_id ≠ caller.id)
    (hadm : member_is_admin cfg caller = false) :
    slash_start cfg client w.vps_state caller name =
        (.permissionDenied "start", w.vps_state) ∧
    slash_stop cfg client w.vps_state caller name =
        (.permissionDenied "stop", w.vps_state) ∧
    slash_restart cfg client w.vps_state caller name =
        (.permissionDenied "restart", w.vps_state) ∧
    slash_delete cfg client w caller name force =
        (.permissionDenied "delete", w) ∧
    slash_exec cfg client w.vps_state caller name command =
        (.permissionDenied "exec", w.vps_state) := by
  have hcond : (entry.owner_id != caller.id && !(member_is_admin cfg caller))
      = true := by
    simp [hown, hadm]
  refine ⟨?_, ?_, ?_, ?_, ?_⟩ <;>
    simp [slash_start, slash_stop, slash_restart, slash_delete, slash_exec,
      hlook, hcond]

/-- Witness for C1: U2 attempting delete and start on a record owned by U1. -/
theorem claim1_witness :
    slash_delete cfgD (some okModel) w1 U2 "eaglenode-a-1" false =
        (.permissionDenied "delete", w1) ∧
    slash_start cfgD (some okModel) w1.vps_state U2 "eaglenode-a-1" =
        (.permissionDenied "start", w1.vps_state) := by
  have h := claim1_nonowner_denied_no_change cfgD (some okModel) w1 U2
    "eaglenode-a-1" "ls" false
    ⟨1, "ubuntu:22.04", "t1", "cid-eaglenode-a-1", "sid-eaglenode-a-1"⟩
    (by decide) (by decide) (by decide)
  exact ⟨h.2.2.2.1, h.1⟩

theorem slash_start_state (cfg : Config) (client : Option DockerModel)
    (st : VpsState) (caller : Caller) (name : String) :
    (slash_start cfg client st caller name).2 = st := by
  unfold slash_start
  repeat first | rfl | split

theorem slash_stop_state (cfg : Config) (client : Option DockerModel)
    (st : VpsState) (caller : Caller) (name : String) :
    (slash_stop cfg client st caller name).2 = st := by
  unfold slash_stop
  repeat first | rfl | split

theorem slash_restart_state (cfg : Config) (client : Option DockerModel)
    (st : VpsState) (caller : Caller) (name : String) :
    (slash_restart cfg client st caller name).2 = st := by
  unfold slash_restart
  repeat first | rfl | split

/-- C7: start, stop and restart never modify any stored field of the registry
(the returned state always equals the input state, on every branch), and when
the runtime reports the container as gone for an authorized caller, the
distinct not-found message is surfaced while the orphaned record is kept. -/
theorem claim7_start_stop_restart_frame :
    (∀ cfg client st caller name,
      (slash_start cfg client st caller name).2 = st ∧
      (slash_stop cfg client st caller name).2 = st ∧
      (slash_restart cfg client st caller name).2 = st) ∧
    (∀ cfg client st caller name entry,
      st.lookup name = some entry →
      (entry.owner_id = caller.id ∨ member_is_admin cfg caller = true) →
      containers_get client entry.container_id = .error .notFound →
      slash_start cfg client st caller name = (.containerNotFound, st) ∧
      slash_stop cfg client st caller name = (.containerNotFound, st) ∧
      slash_restart cfg client st caller name = (.containerNotFound, st)) := by
  constructor
  · intro cfg client st caller name
    exact ⟨slash_start_state cfg client st caller name,
      slash_stop_state cfg client st caller name,
      slash_restart_state cfg client st caller name⟩
  · intro cfg client st caller name entry hlook hauth hgone
    have hcond : (entry.owner_id != caller.id && !(member_is_admin cfg caller))
        = false := by
      rcases hauth with h | h <;> simp [h]
    refine ⟨?_, ?_, ?_⟩ <;>
      simp [slash_start, slash_stop, slash_restart, hlook, hcond, hgone]

/-- Witness for C7: the runtime has lost the container of the record created
by U1; start, stop and restart surface the not-found message and keep the
registry unchanged. -/
theorem claim7_witness :
    slash_start cfgD (some goneModel) w1.vps_state U1 "eaglenode-a-1" =
        (.containerNotFound, w1.vps_state) ∧
    slash_stop cfgD (some goneModel) w1.vps_state U1 "eaglenode-a-1" =
        (.containerNotFound, w1.vps_state) ∧
    slash_restart cfgD (some goneModel) w1.vps_state U1 "eaglenode-a-1" =
        (.containerNotFound, w1.vps_state) :=
  claim7_start_stop_restart_frame.2 cfgD (some goneModel) w1.vps_state U1
    "eaglenode-a-1"
    ⟨1, "ubuntu:22.04", "t1", "cid-eaglenode-a-1", "sid-eaglenode-a-1"⟩
    (by decide) (Or.inl (by decide)) rfl

/-- C3: delete invoked by an authorized caller (owner or admin) removes the
record from the registry and persists the shrunken registry, even when the
runtime container is already absent (runtime not-found is tolerated and the
cleanup still runs). -/
theorem claim3_delete_idempotent_cleanup
    (cfg : Config) (client : Option DockerModel) (w : World) (caller : Caller)
    (name : String) (force : Bool) (entry : InstanceRecord)
    (hlook : w.vps_state.lookup name = some entry)
    (hauth : entry.owner_id = caller.id ∨ member_is_admin cfg caller = true)
    (hgone : containers_get client entry.container_id = .error .notFound ∨
      ∃ cont, containers_get client entry.container_id = .ok cont ∧
        (cont.removeExc = none ∨ cont.removeExc = some .notFound)) :
    slash_delete cfg client w caller name force =
      (.success ("VPS " ++ name ++ " removed and state cleaned."),
        ⟨w.vps_state.filter (fun p => p.1 != name),
         .valid (w.vps_state.filter (fun p => p.1 != name))⟩) ∧
    (slash_delete cfg client w caller name force).2.vps_state.lookup name
      = none := by
  have hcond : (entry.owner_id != caller.id && !(member_is_admin cfg caller))
      = false := by
    rcases hauth with h | h <;> simp [h]
  have hmain : slash_delete cfg client w caller name force =
      (.success ("VPS " ++ name ++ " removed and state cleaned."),
        ⟨w.vps_state.filter (fun p => p.1 != name),
         .valid (w.vps_state.filter (fun p => p.1 != name))⟩) := by
    rcases hgone with hg | ⟨cont, hg, hrem⟩
    · simp [slash_delete, hlook, hcond, hg, save_backup]
    · rcases hrem with hr | hr <;>
        simp [slash_delete, hlook, hcond, hg, hr, save_backup]
  refine ⟨hmain, ?_⟩
  rw [hmain]
  exact lookup_filter_ne _ _

/-- Witness for C3: U1 deletes its record while the runtime object is gone;
the record is removed and the empty registry is persisted. -/
theorem claim3_witness :
    slash_delete cfgD (some goneModel) w1 U1 "eaglenode-a-1" false =
      (.success ("VPS " ++ "eaglenode-a-1" ++ " removed and state cleaned."),
        ⟨w1.vps_state.filter (fun p => p.1 != "eaglenode-a-1"),
         .valid (w1.vps_state.filter (fun p => p.1 != "eaglenode-a-1"))⟩) ∧
    (slash_delete cfgD (some goneModel) w1 U1 "eaglenode-a-1"
        false).2.vps_state.lookup "eaglenode-a-1" = none :=
  claim3_delete_idempotent_cleanup cfgD (some goneModel) w1 U1 "eaglenode-a-1"
    false ⟨1, "ubuntu:22.04", "t1", "cid-eaglenode-a-1", "sid-eaglenode-a-1"⟩
    (by decide) (Or.inl (by decide)) (Or.inl rfl)

/-- C2: whenever a create operation commits (returns `created` and inserts a
record), the number of registry records owned by the creating user is at most
`MAX_VPS_PER_USER`; concretely, with U1 holding records for labels a, b, c at
the default limit 3, a fourth create for label d is rejected with a
quota-exceeded failure and the registry keeps exactly those three records. -/
theorem claim2_quota_on_commit :
    (∀ cfg client w user name image now nm w',
      slash_create cfg client w user name image now = (.created nm, w') →
      (user_containers w'.vps_state user.id).length ≤ cfg.MAX_VPS_PER_USER) ∧
    (slash_create cfgD (some okModel) w3 U1 "d" defImage "t4" =
        (.quotaExceeded 3, w3) ∧
      (user_containers w3.vps_state U1.id).length = 3) := by
  constructor
  · intro cfg client w user name image now nm w' h
    unfold slash_create at h
    split_ifs at h with h1 h2 h3 h4
    · simp at h
    · simp at h
    · simp at h
    · simp at h
    · rcases hr : run_docker_container client image
          (safe_container_name name user.id) user.id with msg | res <;>
        rw [hr] at h
      · simp at h
      · simp only [Prod.mk.injEq, CreateResult.created.injEq] at h
        obtain ⟨-, hw'⟩ := h
        subst hw'
        have hcount : user_containers (w.vps_state ++
            [(safe_container_name name user.id,
              ⟨user.id, image, now, res.id, res.short_id⟩)]) user.id =
            user_containers w.vps_state user.id ++
              [safe_container_name name user.id] := by
          unfold user_containers
          rw [List.filter_append, List.map_append]
          simp
        show (user_containers (w.vps_state ++ _) user.id).length ≤ _
        rw [hcount, List.length_append]
        simp only [List.length_singleton]
        omega
  · constructor
    · decide
    · decide

/-- Witness for C2: a committing create (U1 creating its third record) whose
resulting owned-record count stays within the limit. -/
theorem claim2_witness :
    (user_containers
      ((slash_create cfgD (some okModel) w2 U1 "c" defImage "t3").2.vps_state)
      U1.id).length ≤ cfgD.MAX_VPS_PER_USER :=
  claim2_quota_on_commit.1 cfgD (some okModel) w2 U1 "c" defImage "t3"
    "eaglenode-c-1" w3 (by decide)

/-- C5: the name-sanitization function is a deterministic pure function — the
same `(label, owner_id)` pair always yields the same name — and for a fixed
label, two distinct `owner_id` values always yield distinct names. -/
theorem claim5_name_deterministic_injective :
    (∀ base uid, safe_container_name base uid = safe_container_name base uid) ∧
    (∀ base u1 u2 : _, u1 ≠ u2 →
      safe_container_name base u1 ≠ safe_container_name base u2) := by
  refine ⟨fun _ _ => rfl, ?_⟩
  intro base u1 u2 hne heq
  exact hne (safe_container_name_uid_injective base heq)

/-- Witness for C5: owners 1 and 2 with the same label get distinct names. -/
theorem claim5_witness :
    safe_container_name "box" 1 ≠ safe_container_name "box" 2 :=
  claim5_name_deterministic_injective.2 "box" 1 2 (by decide)

/-- C6: an image reference that contains a denied substring in any letter
case and with any surrounding characters is rejected by create (the record is
never inserted) and the registry is left unchanged. -/
theorem claim6_malicious_image_rejected
    (cfg : Config) (client : Option DockerModel) (w : World) (user : Caller)
    (name image now : String)
    (h : ∃ patt v, patt ∈ MINER_PATTERNS ∧ v.data <:+: image.data ∧
      pyLower v = patt) :
    (slash_create cfg client w user name image now).2 = w ∧
    ((slash_create cfg client w user name image now).1 =
        .quotaExceeded (user_containers w.vps_state user.id).length ∨
      (slash_create cfg client w user name image now).1 = .duplicateName ∨
      (slash_create cfg client w user name image now).1 = .maliciousImage) := by
  have hdet : detect_malicious_image image = true := by
    obtain ⟨patt, v, hmem, hinf, hlow⟩ := h
    unfold detect_malicious_image
    rw [List.any_eq_true]
    refine ⟨patt, hmem, ?_⟩
    rw [decide_eq_true_eq]
    have hp : patt.data = v.data.map Char.toLower := by rw [← hlow]; rfl
    have hi : (pyLower image).data = image.data.map Char.toLower := rfl
    rw [hp, hi]
    exact hinf.map Char.toLower
  constructor
  · unfold slash_create
    split_ifs with h1 h2 <;> simp_all
  · unfold slash_create
    split_ifs with h1 h2 <;> simp_all

/-- Witness for C6: the concrete scenario — creating label `box` from image
`CryptoNight-Miner:latest` (mixed case, surrounded by other characters) on an
empty registry is rejected and the registry stays empty. -/
theorem claim6_witness :
    (slash_create cfgD (some okModel) w0 U1 "box" "CryptoNight-Miner:latest"
        "t1").2 = w0 ∧
    ((slash_create cfgD (some okModel) w0 U1 "box" "CryptoNight-Miner:latest"
        "t1").1 =
        .quotaExceeded (user_containers w0.vps_state U1.id).length ∨
      (slash_create cfgD (some okModel) w0 U1 "box" "CryptoNight-Miner:latest"
        "t1").1 = .duplicateName ∨
      (slash_create cfgD (some okModel) w0 U1 "box" "CryptoNight-Miner:latest"
        "t1").1 = .maliciousImage) :=
  claim6_malicious_image_rejected cfgD (some okModel) w0 U1 "box"
    "CryptoNight-Miner:latest" "t1"
    ⟨"cryptonight", "CryptoNight", by decide, by decide, by decide⟩

/-- C4 counterexample: with U1 at the per-user quota and requesting label `a`
whose sanitized name is already present, the duplicate check and the quota
check would both fail, yet the reported rejection is the quota failure —
refuting the claimed duplicate-first evaluation order. -/
theorem claim4_counterexample :
    (w3.vps_state.lookup (safe_container_name "a" U1.id)).isSome = true ∧
    slash_create cfgD (some okModel) w3 U1 "a" defImage "t5" =
      (.quotaExceeded 3, w3) ∧
    CreateResult.quotaExceeded 3 ≠ CreateResult.duplicateName :=
  ⟨by decide, by decide, by decide⟩

/-- C4 (amended): the validation checks of create are evaluated in the order
per-user quota first, then duplicate name, then image-policy denial, then the
global capacity cap; when several checks would fail at once, the rejection
reason reported is the earliest failing check in that order. -/
theorem claim4_check_order (cfg : Config) (client : Option DockerModel)
    (w : World) (user : Caller) (name image now : String) :
    (cfg.MAX_VPS_PER_USER ≤ (user_containers w.vps_state user.id).length →
      (slash_create cfg client w user name image now).1 =
        .quotaExceeded (user_containers w.vps_state user.id).length) ∧
    ((user_containers w.vps_state user.id).length < cfg.MAX_VPS_PER_USER →
      (w.vps_state.lookup (safe_container_name name user.id)).isSome = true →
      (slash_create cfg client w user name image now).1 = .duplicateName) ∧
    ((user_containers w.vps_state user.id).length < cfg.MAX_VPS_PER_USER →
      (w.vps_state.lookup (safe_container_name name user.id)).isSome = false →
      detect_malicious_image image = true →
      (slash_create cfg client w user name image now).1 = .maliciousImage) ∧
    ((user_containers w.vps_state user.id).length < cfg.MAX_VPS_PER_USER →
      (w.vps_state.lookup (safe_container_name name user.id)).isSome = false →
      detect_malicious_image image = false →
      cfg.MAX_CONTAINERS ≤ w.vps_state.length →
      (slash_create cfg client w user name image now).1 = .globalCap) := by
  refine ⟨?_, ?_, ?_, ?_⟩
  · intro h1
    simp [slash_create, h1]
  · intro h1 h2
    simp [slash_create, Nat.not_le.mpr h1, h2]
  · intro h1 h2 h3
    simp [slash_create, Nat.not_le.mpr h1, h2, h3]
  · intro h1 h2 h3 h4
    simp [slash_create, Nat.not_le.mpr h1, h2, h3, h4]

/-- Witness for C4 (amended): U1 at the quota requesting the duplicate label
`a` is rejected with the quota reason (the earliest check in the actual
order). -/
theorem claim4_witness :
    (slash_create cfgD (some okModel) w3 U1 "a" defImage "t5").1 =
      .quotaExceeded (user_containers w3.vps_state U1.id).length :=
  (claim4_check_order cfgD (some okModel) w3 U1 "a" defImage "t5").1
    (by decide)

/-- C8 counterexample: with the runtime client absent, `list` does not fail at
all (it succeeds and annotates the record), and `start` fails with a message
wrapping the attribute error, which is not the fixed runtime-unavailable
error raised by `run_docker_container` — refuting the claim that every
lifecycle operation fails with the same fixed error. -/
theorem claim8_counterexample :
    slash_list none w1.vps_state U1 =
      .listing ["**eaglenode-a-1** — `sid-eaglenode-a-1` — `ubuntu:22.04` — `not found` — created t1"] ∧
    slash_start cfgD none w1.vps_state U1 "eaglenode-a-1" =
      (.opFailed ("Failed to start VPS: " ++ attrErrMsg), w1.vps_state) ∧
    ("Failed to start VPS: " ++ attrErrMsg) ≠ dockerUnavailableMsg :=
  ⟨by decide, by decide, by decide⟩

/-- C8 (amended): when the runtime client is absent, create fails with the
fixed "Docker client not available on host" error without attempting the
runtime call; start, stop, restart, delete, exec and status instead fail with
operation-specific messages wrapping the attribute error raised by touching
the absent client, and list still succeeds, annotating each owned record. -/
theorem claim8_runtime_unavailable (cfg : Config) (w : World) (st : VpsState)
    (bf : BackupFile) (caller : Caller) (name command now image : String)
    (force : Bool) (entry : InstanceRecord)
    (hquota : (user_containers w.vps_state caller.id).length <
      cfg.MAX_VPS_PER_USER)
    (hdup : (w.vps_state.lookup (safe_container_name name caller.id)).isSome
      = false)
    (hmal : detect_malicious_image image = false)
    (hcap : w.vps_state.length < cfg.MAX_CONTAINERS)
    (hlook : st.lookup name = some entry)
    (hauth : entry.owner_id = caller.id ∨ member_is_admin cfg caller = true) :
    slash_create cfg none w caller name image now =
      (.createFailed dockerUnavailableMsg, w) ∧
    slash_start cfg none st caller name =
      (.opFailed ("Failed to start VPS: " ++ attrErrMsg), st) ∧
    slash_stop cfg none st caller name =
      (.opFailed ("Failed to stop VPS: " ++ attrErrMsg), st) ∧
    slash_restart cfg none st caller name =
      (.opFailed ("Failed to restart VPS: " ++ attrErrMsg), st) ∧
    slash_delete cfg none ⟨st, bf⟩ caller name force =
      (.opFailed ("Failed to delete VPS: " ++ attrErrMsg), ⟨st, bf⟩) ∧
    slash_exec cfg none st caller name command =
      (.opFailed ("Exec failed: " ++ attrErrMsg), st) ∧
    slash_status none st name =
      (.statusError ("Error getting status: " ++ attrErrMsg), st) ∧
    (st.filter (fun p => p.2.owner_id == caller.id) ≠ [] →
      slash_list none st caller =
        .listing ((st.filter (fun p => p.2.owner_id == caller.id)).map
          (fun p => list_line none p.1 p.2))) := by
  have hcond : (entry.owner_id != caller.id && !(member_is_admin cfg caller))
      = false := by
    rcases hauth with h | h <;> simp [h]
  refine ⟨?_, ?_, ?_, ?_, ?_, ?_, ?_, ?_⟩
  · simp [slash_create, Nat.not_le.mpr hquota, hdup, hmal,
      Nat.not_le.mpr hcap, run_docker_container]
  · simp [slash_start, hlook, hcond, containers_get]
  · simp [slash_stop, hlook, hcond, containers_get]
  · simp [slash_restart, hlook, hcond, containers_get]
  · simp [slash_delete, hlook, hcond, containers_get]
  · simp [slash_exec, hlook, hcond, containers_get]
  · simp [slash_status, hlook, containers_get]
  · intro hne
    simp [slash_list, List.isEmpty_iff, hne]

/-- Witness for C8 (amended) at the concrete one-record state of `w1` with
owner U1 and the runtime client absent. -/
theorem claim8_witness :
    slash_create cfgD none w0 U1 "eaglenode-a-1" defImage "t9" =
      (.createFailed dockerUnavailableMsg, w0) ∧
    slash_start cfgD none w1.vps_state U1 "eaglenode-a-1" =
      (.opFailed ("Failed to start VPS: " ++ attrErrMsg), w1.vps_state) ∧
    slash_stop cfgD none w1.vps_state U1 "eaglenode-a-1" =
      (.opFailed ("Failed to stop VPS: " ++ attrErrMsg), w1.vps_state) ∧
    slash_restart cfgD none w1.vps_state U1 "eaglenode-a-1" =
      (.opFailed ("Failed to restart VPS: " ++ attrErrMsg), w1.vps_state) ∧
    slash_delete cfgD none ⟨w1.vps_state, .absent⟩ U1 "eaglenode-a-1" false =
      (.opFailed ("Failed to delete VPS: " ++ attrErrMsg),
        ⟨w1.vps_state, .absent⟩) ∧
    slash_exec cfgD none w1.vps_state U1 "eaglenode-a-1" "ls" =
      (.opFailed ("Exec failed: " ++ attrErrMsg), w1.vps_state) ∧
    slash_status none w1.vps_state "eaglenode-a-1" =
      (.statusError ("Error getting status: " ++ attrErrMsg), w1.vps_state) ∧
    (w1.vps_state.filter (fun p => p.2.owner_id == U1.id) ≠ [] →
      slash_list none w1.vps_state U1 =
        .listing ((w1.vps_state.filter (fun p => p.2.owner_id == U1.id)).map
          (fun p => list_line none p.1 p.2))) := by
  exact claim8_runtime_unavailable cfgD w0 w1.vps_state BackupFile.absent
    U1 "eaglenode-a-1" "ls" "t9" defImage false
    ⟨1, "ubuntu:22.04", "t1", "cid-eaglenode-a-1", "sid-eaglenode-a-1"⟩
    (by decide) (by decide) (by decide) (by decide) (by decide)
    (Or.inl (by decide))

/-- C9 counterexample: at a one-record state whose runtime cannot be reached
(absent client), the listing annotates the record with status `not found`, not
`unknown` — refuting the claimed annotation while confirming that the listing
still succeeds. -/
theorem claim9_counterexample :
    slash_list none w1.vps_state U1 =
      .listing ["**eaglenode-a-1** — `sid-eaglenode-a-1` — `ubuntu:22.04` — `not found` — created t1"] ∧
    ("not found".data <:+:
      "**eaglenode-a-1** — `sid-eaglenode-a-1` — `ubuntu:22.04` — `not found` — created t1".data) ∧
    ¬ ("unknown".data <:+:
      "**eaglenode-a-1** — `sid-eaglenode-a-1` — `ubuntu:22.04` — `not found` — created t1".data) :=
  ⟨by decide, by decide, by decide⟩

/-- C9 (amended): list returns one annotated line for every record owned by
the caller; when reaching the runtime for a record fails, that record is
annotated with status "not found" (not "unknown") while the listing as a
whole still succeeds and includes every owned record. -/
theorem claim9_list_owned (client : Option DockerModel) (st : VpsState)
    (user : Caller) :
    ((st.filter (fun p => p.2.owner_id == user.id)) = [] →
      slash_list client st user = .noInstances) ∧
    ((st.filter (fun p => p.2.owner_id == user.id)) ≠ [] →
      slash_list client st user =
        .listing ((st.filter (fun p => p.2.owner_id == user.id)).map
          (fun p => list_line client p.1 p.2)) ∧
      ((st.filter (fun p => p.2.owner_id == user.id)).map
          (fun p => list_line client p.1 p.2)).length =
        (st.filter (fun p => p.2.owner_id == user.id)).length) ∧
    (∀ cid e, containers_get client cid = .error e →
      list_status client cid = "not found") := by
  refine ⟨?_, ?_, ?_⟩
  · intro hempty
    simp [slash_list, List.isEmpty_iff, hempty]
  · intro hne
    refine ⟨?_, by rw [List.length_map]⟩
    simp [slash_list, List.isEmpty_iff, hne]
  · intro cid e he
    unfold list_status
    rw [he]

/-- Witness for C9 (amended): one owned record with the runtime unreachable;
the listing succeeds with the record annotated "not found". -/
theorem claim9_witness :
    slash_list none w1.vps_state U1 =
      .listing ((w1.vps_state.filter (fun p => p.2.owner_id == U1.id)).map
        (fun p => list_line none p.1 p.2)) ∧
    list_status none "cid-eaglenode-a-1" = "not found" :=
  ⟨((claim9_list_owned none w1.vps_state U1).2.1 (by decide)).1,
    (claim9_list_owned none w1.vps_state U1).2.2 "cid-eaglenode-a-1"
      (.other attrErrMsg) rfl⟩

/-- C10: restoring from durable storage is atomic with respect to failure:
whether the backup file is absent or cannot be deserialized, the in-memory
registry is left exactly as it was. -/
theorem claim10_restore_atomic :
    (∀ st : VpsState, slash_restore ⟨st, .absent⟩ = ⟨st, .absent⟩) ∧
    (∀ st : VpsState, slash_restore ⟨st, .corrupt⟩ = ⟨st, .corrupt⟩) :=
  ⟨fun _ => rfl, fun _ => rfl⟩

end VpsBot
